import Mathlib

/-!
Shallow embedding of the Drop Cars admin client's zoomable-image gesture
transform (`src/components/ZoomableImage.tsx`) and of the API client's
session-handling logic (`src/services/api.ts` and the updated variant of the
same service embedded further down in `ZoomableImage.tsx`).

Numbers are modelled as rationals: the source's arithmetic on gesture state is
plain field arithmetic (multiplication, addition, division by 2) plus
min/max clamping, with no rounding or overflow.
-/

namespace DropCars

/-- `MIN_SCALE` from `ZoomableImage.tsx`. -/
def MIN_SCALE : ℚ := 1

/-- `MAX_SCALE` from `ZoomableImage.tsx`. -/
def MAX_SCALE : ℚ := 4

/-- `clamp(value, min, max) = Math.min(max, Math.max(min, value))` from
`ZoomableImage.tsx`. -/
def clamp (value lo hi : ℚ) : ℚ := min hi (max lo value)

/-- The six shared values of the `ZoomableImage` component:
`scale`, `savedScale`, `translateX`, `translateY`, `savedTranslateX`,
`savedTranslateY`. -/
structure TransformState where
  scale : ℚ
  savedScale : ℚ
  translateX : ℚ
  translateY : ℚ
  savedTranslateX : ℚ
  savedTranslateY : ℚ
deriving DecidableEq, Repr

/-- Initial state at mount: `scale = 1`, everything else as initialised by
the `useSharedValue` calls. -/
def initState : TransformState :=
  { scale := 1, savedScale := 1, translateX := 0, translateY := 0,
    savedTranslateX := 0, savedTranslateY := 0 }

/-- `pinchGesture.onUpdate`: `newScale = savedScale * e.scale`;
`scale = Math.min(MAX_SCALE, Math.max(MIN_SCALE, newScale))`; then the
translation is re-clamped to the bounds computed from the NEW scale. -/
def pinchUpdate (width height m : ℚ) (s : TransformState) : TransformState :=
  let newScale := s.savedScale * m
  let scale' := min MAX_SCALE (max MIN_SCALE newScale)
  let maxTx := (width * (scale' - 1)) / 2
  let maxTy := (height * (scale' - 1)) / 2
  { s with
    scale := scale'
    translateX := clamp s.translateX (-maxTx) maxTx
    translateY := clamp s.translateY (-maxTy) maxTy }

/-- `pinchGesture.onEnd`: commit `savedScale = scale.value`, re-clamp the
translation to the bounds of the current scale and commit it. -/
def pinchEnd (width height : ℚ) (s : TransformState) : TransformState :=
  let maxTx := (width * (s.scale - 1)) / 2
  let maxTy := (height * (s.scale - 1)) / 2
  let tx := clamp s.translateX (-maxTx) maxTx
  let ty := clamp s.translateY (-maxTy) maxTy
  { s with
    savedScale := s.scale
    translateX := tx
    translateY := ty
    savedTranslateX := tx
    savedTranslateY := ty }

/-- `panGesture.onUpdate`: translation candidate is
`savedTranslate + e.translation`, clamped to the bounds derived from the
CURRENT `scale.value`. -/
def panUpdate (width height dx dy : ℚ) (s : TransformState) : TransformState :=
  let maxTx := (width * (s.scale - 1)) / 2
  let maxTy := (height * (s.scale - 1)) / 2
  { s with
    translateX := clamp (s.savedTranslateX + dx) (-maxTx) maxTx
    translateY := clamp (s.savedTranslateY + dy) (-maxTy) maxTy }

/-- `panGesture.onEnd`: commit the current translation. -/
def panEnd (s : TransformState) : TransformState :=
  { s with
    savedTranslateX := s.translateX
    savedTranslateY := s.translateY }

/-- The gesture events the component reacts to. -/
inductive GestureEvent where
  | pinchUpdate (m : ℚ)
  | pinchEnd
  | panUpdate (dx dy : ℚ)
  | panEnd
deriving DecidableEq, Repr

/-- One step of the component's gesture handling. -/
def step (width height : ℚ) (s : TransformState) : GestureEvent → TransformState
  | .pinchUpdate m => pinchUpdate width height m s
  | .pinchEnd => pinchEnd width height s
  | .panUpdate dx dy => panUpdate width height dx dy s
  | .panEnd => panEnd s

/-- Run a sequence of gesture events from the initial state. -/
def run (width height : ℚ) (events : List GestureEvent) : TransformState :=
  events.foldl (step width height) initState

/-! ### Helper lemmas about `clamp` -/

theorem clamp_le (v lo hi : ℚ) : clamp v lo hi ≤ hi :=
  min_le_left _ _

theorem le_clamp (v lo hi : ℚ) (h : lo ≤ hi) : lo ≤ clamp v lo hi :=
  le_min h (le_max_left _ _)

theorem abs_clamp_le (v b : ℚ) (hb : 0 ≤ b) : |clamp v (-b) b| ≤ b :=
  abs_le.mpr ⟨le_clamp v (-b) b (neg_le_self hb), clamp_le v (-b) b⟩

/-- The state invariant of the zoomable image: the scale stays in
`[MIN_SCALE, MAX_SCALE]` and each translation axis stays within the overscan
`dimension * (scale - 1) / 2` created by the current zoom. -/
def Inv (width height : ℚ) (s : TransformState) : Prop :=
  1 ≤ s.scale ∧ s.scale ≤ 4 ∧
  |s.translateX| ≤ width * (s.scale - 1) / 2 ∧
  |s.translateY| ≤ height * (s.scale - 1) / 2

theorem inv_initState (width height : ℚ) : Inv width height initState := by
  refine ⟨?_, ?_, ?_, ?_⟩ <;> simp [initState, Inv]

theorem maxT_nonneg (d sc : ℚ) (hd : 0 ≤ d) (hsc : 1 ≤ sc) :
    0 ≤ d * (sc - 1) / 2 := by
  have : 0 ≤ sc - 1 := by linarith
  positivity

theorem inv_pinchUpdate (width height m : ℚ) (s : TransformState)
    (hw : 0 ≤ width) (hh : 0 ≤ height) :
    Inv width height (pinchUpdate width height m s) := by
  unfold pinchUpdate
  have h1 : (1 : ℚ) ≤ min MAX_SCALE (max MIN_SCALE (s.savedScale * m)) := by
    unfold MIN_SCALE MAX_SCALE
    exact le_min (by norm_num) (le_max_left _ _)
  have h4 : min MAX_SCALE (max MIN_SCALE (s.savedScale * m)) ≤ 4 := by
    unfold MAX_SCALE
    exact min_le_left _ _
  refine ⟨h1, h4, ?_, ?_⟩
  · exact abs_clamp_le _ _ (maxT_nonneg width _ hw h1)
  · exact abs_clamp_le _ _ (maxT_nonneg height _ hh h1)

theorem inv_pinchEnd (width height : ℚ) (s : TransformState)
    (hw : 0 ≤ width) (hh : 0 ≤ height) (hs : Inv width height s) :
    Inv width height (pinchEnd width height s) := by
  obtain ⟨h1, h4, _, _⟩ := hs
  unfold pinchEnd
  refine ⟨h1, h4, ?_, ?_⟩
  · exact abs_clamp_le _ _ (maxT_nonneg width _ hw h1)
  · exact abs_clamp_le _ _ (maxT_nonneg height _ hh h1)

theorem inv_panUpdate (width height dx dy : ℚ) (s : TransformState)
    (hw : 0 ≤ width) (hh : 0 ≤ height) (hs : Inv width height s) :
    Inv width height (panUpdate width height dx dy s) := by
  obtain ⟨h1, h4, _, _⟩ := hs
  unfold panUpdate
  refine ⟨h1, h4, ?_, ?_⟩
  · exact abs_clamp_le _ _ (maxT_nonneg width _ hw h1)
  · exact abs_clamp_le _ _ (maxT_nonneg height _ hh h1)

theorem inv_panEnd (width height : ℚ) (s : TransformState)
    (hs : Inv width height s) : Inv width height (panEnd s) := hs

theorem inv_step (width height : ℚ) (s : TransformState) (e : GestureEvent)
    (hw : 0 ≤ width) (hh : 0 ≤ height) (hs : Inv width height s) :
    Inv width height (step width height s e) := by
  cases e with
  | pinchUpdate m => exact inv_pinchUpdate width height m s hw hh
  | pinchEnd => exact inv_pinchEnd width height s hw hh hs
  | panUpdate dx dy => exact inv_panUpdate width height dx dy s hw hh hs
  | panEnd => exact inv_panEnd width height s hs

theorem inv_foldl (width height : ℚ) (events : List GestureEvent)
    (s : TransformState) (hw : 0 ≤ width) (hh : 0 ≤ height)
    (hs : Inv width height s) :
    Inv width height (events.foldl (step width height) s) := by
  induction events generalizing s with
  | nil => exact hs
  | cons e es ih => exact ih _ (inv_step width height s e hw hh hs)

theorem inv_run (width height : ℚ) (events : List GestureEvent)
    (hw : 0 ≤ width) (hh : 0 ≤ height) :
    Inv width height (run width height events) :=
  inv_foldl width height events initState hw hh (inv_initState width height)

/-! ### Rendered transform (`animatedStyle`) -/

/-- One entry of the `transform` array handed to the animated style. -/
inductive TransformOp where
  | translateX (v : ℚ)
  | translateY (v : ℚ)
  | scale (v : ℚ)
deriving DecidableEq, Repr

/-- `animatedStyle` in `ZoomableImage.tsx`: the transform array
`[{translateX}, {translateY}, {scale}]` built from the current shared
values, in exactly that order. -/
def animatedStyle (s : TransformState) : List TransformOp :=
  [TransformOp.translateX s.translateX,
   TransformOp.translateY s.translateY,
   TransformOp.scale s.scale]

/-- Action of a single transform entry on a point. -/
def applyOp : TransformOp → ℚ × ℚ → ℚ × ℚ
  | TransformOp.translateX v, (x, y) => (x + v, y)
  | TransformOp.translateY v, (x, y) => (x, y + v)
  | TransformOp.scale v, (x, y) => (x * v, y * v)

/-- Action of a composed transform list on a point, applying the entries in
the order they appear in the list. -/
def applyTransform (ops : List TransformOp) (p : ℚ × ℚ) : ℚ × ℚ :=
  ops.foldl (fun q op => applyOp op q) p

/-! ### API client session handling

JS strings are modelled as `List Char`; the persisted local storage is
modelled by its only relevant entry, the optional `auth_token`. The network
is abstracted as the outcome of one request: either a decoded response value
or the final error message thrown by `makeRequest`. -/

/-- The persisted `auth_token` entry of AsyncStorage. -/
abbrev Storage := Option (List Char)

/-- JavaScript `String.prototype.toLowerCase` on the character list. -/
def jsToLower (s : List Char) : List Char := s.map Char.toLower

/-- JavaScript `String.prototype.includes`: substring occurrence (the empty
pattern always occurs). -/
def containsSub (s pat : List Char) : Bool :=
  pat.isPrefixOf s ||
    match s with
    | [] => false
    | _ :: t => containsSub t pat

/-- Outcome of one HTTP round trip as seen by `makeRequest`: either the
decoded JSON response, or the error message of the exception thrown (built
from the non-ok response or the network failure). -/
inductive RequestOutcome (T : Type) where
  | success (data : T)
  | failure (message : List Char)

/-- `ApiService.logout`: `AsyncStorage.removeItem('auth_token')`. -/
def logout (_st : Storage) : Storage := none

/-- `ApiService.makeRequest` of `src/services/api.ts`: on any caught error,
if `skipLogoutOnError` is false it calls `this.logout()`, then rethrows. -/
def makeRequestApiTs (T : Type) (skipLogoutOnError : Bool)
    (outcome : RequestOutcome T) (st : Storage) :
    Except (List Char) T × Storage :=
  match outcome with
  | RequestOutcome.success d => (Except.ok d, st)
  | RequestOutcome.failure msg =>
      (Except.error msg, if skipLogoutOnError then st else logout st)

/-- The authentication-error test of the `makeRequest` variant embedded in
`ZoomableImage.tsx` (lines 213-229): the lower-cased error message contains
one of `not authenticated`, `unauthorized`, `401`, `403`, `token`. -/
def isAuthError (message : List Char) : Bool :=
  let m := jsToLower message
  containsSub m "not authenticated".toList ||
  containsSub m "unauthorized".toList ||
  containsSub m "401".toList ||
  containsSub m "403".toList ||
  containsSub m "token".toList

/-- `ApiService.makeRequest`, embedded variant (`ZoomableImage.tsx` lines
213-229): on a caught error, it calls `this.logout()` only when
`skipLogoutOnError` is false and the message is authentication-related,
then rethrows. -/
def makeRequestEmbedded (T : Type) (skipLogoutOnError : Bool)
    (outcome : RequestOutcome T) (st : Storage) :
    Except (List Char) T × Storage :=
  match outcome with
  | RequestOutcome.success d => (Except.ok d, st)
  | RequestOutcome.failure msg =>
      (Except.error msg,
        if !skipLogoutOnError && isAuthError msg then logout st else st)

/-- The decoded response of `/admin/signin`. -/
structure LoginResponse where
  access_token : List Char
  token_type : List Char

/-- `ApiService.login` of `src/services/api.ts`: calls `makeRequest` with
`skipLogoutOnError = true`; on success stores `response.access_token` in
AsyncStorage when it is truthy (a non-empty string). -/
def loginApiTs (outcome : RequestOutcome LoginResponse) (st : Storage) :
    Except (List Char) LoginResponse × Storage :=
  match makeRequestApiTs LoginResponse true outcome st with
  | (Except.ok resp, st1) =>
      (Except.ok resp,
        if resp.access_token.isEmpty then st1 else some resp.access_token)
  | (Except.error e, st1) => (Except.error e, st1)

/-- `ApiService.login`, embedded variant (`ZoomableImage.tsx` lines
233-244): identical logic over the embedded `makeRequest`. -/
def loginEmbedded (outcome : RequestOutcome LoginResponse) (st : Storage) :
    Except (List Char) LoginResponse × Storage :=
  match makeRequestEmbedded LoginResponse true outcome st with
  | (Except.ok resp, st1) =>
      (Except.ok resp,
        if resp.access_token.isEmpty then st1 else some resp.access_token)
  | (Except.error e, st1) => (Except.error e, st1)

/-! ### Claim theorems for the zoom transform -/

/-- C1: from the initial state, any sequence of pinch updates, pinch ends,
pan updates and pan ends reaches only states with
`MIN_SCALE ≤ scale ≤ MAX_SCALE`, `|translateX| ≤ width*(scale-1)/2` and
`|translateY| ≤ height*(scale-1)/2`; in particular `scale = 1` forces the
translation to be exactly `(0, 0)`. -/
theorem C1_reachable_invariant (width height : ℚ) (events : List GestureEvent)
    (hw : 0 ≤ width) (hh : 0 ≤ height) :
    MIN_SCALE ≤ (run width height events).scale ∧
    (run width height events).scale ≤ MAX_SCALE ∧
    |(run width height events).translateX| ≤
      width * ((run width height events).scale - 1) / 2 ∧
    |(run width height events).translateY| ≤
      height * ((run width height events).scale - 1) / 2 ∧
    ((run width height events).scale = 1 →
      (run width height events).translateX = 0 ∧
      (run width height events).translateY = 0) := by
  obtain ⟨h1, h4, hx, hy⟩ := inv_run width height events hw hh
  refine ⟨h1, h4, hx, hy, fun hsc => ⟨?_, ?_⟩⟩
  · have : |(run width height events).translateX| ≤ 0 := by
      simpa [hsc] using hx
    simpa using abs_nonpos_iff.mp (by linarith [abs_nonneg (run width height events).translateX])
  · have : |(run width height events).translateY| ≤ 0 := by
      simpa [hsc] using hy
    simpa using abs_nonpos_iff.mp (by linarith [abs_nonneg (run width height events).translateY])

/-- C1 witness: a concrete run with zoom-in, a runaway pan, and a zoom-out
back to scale 1 keeps the invariant. -/
theorem C1_reachable_invariant_witness :
    (0 : ℚ) ≤ 300 ∧ (0 : ℚ) ≤ 400 ∧
    (MIN_SCALE ≤ (run 300 400 [GestureEvent.pinchUpdate 3,
        GestureEvent.panUpdate 1000 (-1000),
        GestureEvent.pinchUpdate (1 / 3)]).scale ∧
      (run 300 400 [GestureEvent.pinchUpdate 3,
        GestureEvent.panUpdate 1000 (-1000),
        GestureEvent.pinchUpdate (1 / 3)]).scale ≤ MAX_SCALE ∧
      |(run 300 400 [GestureEvent.pinchUpdate 3,
        GestureEvent.panUpdate 1000 (-1000),
        GestureEvent.pinchUpdate (1 / 3)]).translateX| ≤
        300 * ((run 300 400 [GestureEvent.pinchUpdate 3,
          GestureEvent.panUpdate 1000 (-1000),
          GestureEvent.pinchUpdate (1 / 3)]).scale - 1) / 2 ∧
      |(run 300 400 [GestureEvent.pinchUpdate 3,
        GestureEvent.panUpdate 1000 (-1000),
        GestureEvent.pinchUpdate (1 / 3)]).translateY| ≤
        400 * ((run 300 400 [GestureEvent.pinchUpdate 3,
          GestureEvent.panUpdate 1000 (-1000),
          GestureEvent.pinchUpdate (1 / 3)]).scale - 1) / 2 ∧
      ((run 300 400 [GestureEvent.pinchUpdate 3,
        GestureEvent.panUpdate 1000 (-1000),
        GestureEvent.pinchUpdate (1 / 3)]).scale = 1 →
        (run 300 400 [GestureEvent.pinchUpdate 3,
          GestureEvent.panUpdate 1000 (-1000),
          GestureEvent.pinchUpdate (1 / 3)]).translateX = 0 ∧
        (run 300 400 [GestureEvent.pinchUpdate 3,
          GestureEvent.panUpdate 1000 (-1000),
          GestureEvent.pinchUpdate (1 / 3)]).translateY = 0)) :=
  ⟨by norm_num, by norm_num,
    C1_reachable_invariant 300 400
      [GestureEvent.pinchUpdate 3, GestureEvent.panUpdate 1000 (-1000),
        GestureEvent.pinchUpdate (1 / 3)] (by norm_num) (by norm_num)⟩

/-- C2: a pinch update sets `scale = clamp(savedScale * m, MIN_SCALE,
MAX_SCALE)`, so the resulting scale is never outside `[1, 4]`. -/
theorem C2_pinch_scale_clamped (width height m : ℚ) (s : TransformState)
    (_h1 : 1 ≤ s.savedScale) (_h4 : s.savedScale ≤ 4) :
    (pinchUpdate width height m s).scale =
      clamp (s.savedScale * m) MIN_SCALE MAX_SCALE ∧
    1 ≤ (pinchUpdate width height m s).scale ∧
    (pinchUpdate width height m s).scale ≤ 4 := by
  refine ⟨rfl, ?_, ?_⟩
  · exact le_min (by norm_num [MAX_SCALE]) (le_max_left _ _)
  · exact min_le_left _ _

/-- C2 witness: a pinch with multiplier `10` from saved scale `2` clamps to
`MAX_SCALE = 4`. -/
theorem C2_pinch_scale_clamped_witness :
    (1 : ℚ) ≤ 2 ∧ (2 : ℚ) ≤ 4 ∧
    ((pinchUpdate 300 400 10
        { scale := 2, savedScale := 2, translateX := 0, translateY := 0,
          savedTranslateX := 0, savedTranslateY := 0 }).scale =
      clamp (2 * 10) MIN_SCALE MAX_SCALE ∧
    1 ≤ (pinchUpdate 300 400 10
        { scale := 2, savedScale := 2, translateX := 0, translateY := 0,
          savedTranslateX := 0, savedTranslateY := 0 }).scale ∧
    (pinchUpdate 300 400 10
        { scale := 2, savedScale := 2, translateX := 0, translateY := 0,
          savedTranslateX := 0, savedTranslateY := 0 }).scale ≤ 4) :=
  ⟨by norm_num, by norm_num,
    C2_pinch_scale_clamped 300 400 10
      { scale := 2, savedScale := 2, translateX := 0, translateY := 0,
        savedTranslateX := 0, savedTranslateY := 0 }
      (by norm_num) (by norm_num)⟩

/-- C3: a pan update sets
`translateX = clamp(savedTranslateX + dx, -width*(scale-1)/2, width*(scale-1)/2)`
and symmetrically `translateY` with `height`, the clamp bounds being computed
from the current `scale`, not from `savedScale`. -/
theorem C3_pan_update_formula (width height dx dy : ℚ) (s : TransformState) :
    (panUpdate width height dx dy s).translateX =
      clamp (s.savedTranslateX + dx)
        (-(width * (s.scale - 1) / 2)) (width * (s.scale - 1) / 2) ∧
    (panUpdate width height dx dy s).translateY =
      clamp (s.savedTranslateY + dy)
        (-(height * (s.scale - 1) / 2)) (height * (s.scale - 1) / 2) :=
  ⟨rfl, rfl⟩

/-- C4: a single pinch update re-clamps the translation into the bounds of
the NEW scale within that same update, even with no pan event. -/
theorem C4_pinch_reclamps_translation (width height m : ℚ) (s : TransformState)
    (hw : 0 ≤ width) (hh : 0 ≤ height) :
    |(pinchUpdate width height m s).translateX| ≤
      width * ((pinchUpdate width height m s).scale - 1) / 2 ∧
    |(pinchUpdate width height m s).translateY| ≤
      height * ((pinchUpdate width height m s).scale - 1) / 2 :=
  ⟨(inv_pinchUpdate width height m s hw hh).2.2.1,
   (inv_pinchUpdate width height m s hw hh).2.2.2⟩

/-- C4 witness: zooming out by `m = 1/2` from scale 2 with the translation
at the previous bound `150` re-clamps it immediately. -/
theorem C4_pinch_reclamps_translation_witness :
    (0 : ℚ) ≤ 300 ∧ (0 : ℚ) ≤ 400 ∧
    (|(pinchUpdate 300 400 (1 / 2)
        { scale := 2, savedScale := 2, translateX := 150, translateY := 0,
          savedTranslateX := 150, savedTranslateY := 0 }).translateX| ≤
      300 * ((pinchUpdate 300 400 (1 / 2)
        { scale := 2, savedScale := 2, translateX := 150, translateY := 0,
          savedTranslateX := 150, savedTranslateY := 0 }).scale - 1) / 2 ∧
    |(pinchUpdate 300 400 (1 / 2)
        { scale := 2, savedScale := 2, translateX := 150, translateY := 0,
          savedTranslateX := 150, savedTranslateY := 0 }).translateY| ≤
      400 * ((pinchUpdate 300 400 (1 / 2)
        { scale := 2, savedScale := 2, translateX := 150, translateY := 0,
          savedTranslateX := 150, savedTranslateY := 0 }).scale - 1) / 2) :=
  ⟨by norm_num, by norm_num,
    C4_pinch_reclamps_translation 300 400 (1 / 2)
      { scale := 2, savedScale := 2, translateX := 150, translateY := 0,
        savedTranslateX := 150, savedTranslateY := 0 }
      (by norm_num) (by norm_num)⟩

/-- C5: the concrete scenario with `W = 300`, `H = 400`: pinch `m = 2` gives
scale 2 with bounds `maxTx = 150`, `maxTy = 200`; pan delta `(300, 0)` clamps
`translateX` to 150; ending both gestures commits
`saved = (scale 2, tx 150, ty 0)`; a further pinch `m = 1/2` gives scale 1
and forces the translation to `(0, 0)` with no pan event. -/
theorem C5_scenario :
    (run 300 400 [GestureEvent.pinchUpdate 2]).scale = 2 ∧
    300 * ((run 300 400 [GestureEvent.pinchUpdate 2]).scale - 1) / 2 = 150 ∧
    400 * ((run 300 400 [GestureEvent.pinchUpdate 2]).scale - 1) / 2 = 200 ∧
    (run 300 400 [GestureEvent.pinchUpdate 2,
      GestureEvent.panUpdate 300 0]).translateX = 150 ∧
    (run 300 400 [GestureEvent.pinchUpdate 2, GestureEvent.panUpdate 300 0,
      GestureEvent.panEnd, GestureEvent.pinchEnd]).savedScale = 2 ∧
    (run 300 400 [GestureEvent.pinchUpdate 2, GestureEvent.panUpdate 300 0,
      GestureEvent.panEnd, GestureEvent.pinchEnd]).savedTranslateX = 150 ∧
    (run 300 400 [GestureEvent.pinchUpdate 2, GestureEvent.panUpdate 300 0,
      GestureEvent.panEnd, GestureEvent.pinchEnd]).savedTranslateY = 0 ∧
    (run 300 400 [GestureEvent.pinchUpdate 2, GestureEvent.panUpdate 300 0,
      GestureEvent.panEnd, GestureEvent.pinchEnd,
      GestureEvent.pinchUpdate (1 / 2)]).scale = 1 ∧
    (run 300 400 [GestureEvent.pinchUpdate 2, GestureEvent.panUpdate 300 0,
      GestureEvent.panEnd, GestureEvent.pinchEnd,
      GestureEvent.pinchUpdate (1 / 2)]).translateX = 0 ∧
    (run 300 400 [GestureEvent.pinchUpdate 2, GestureEvent.panUpdate 300 0,
      GestureEvent.panEnd, GestureEvent.pinchEnd,
      GestureEvent.pinchUpdate (1 / 2)]).translateY = 0 := by
  norm_num [run, step, pinchUpdate, panUpdate, pinchEnd, panEnd, clamp,
    initState, MIN_SCALE, MAX_SCALE, min_def, max_def]

/-- C6: the rendered transform is the composed list
`[translateX, translateY, scale]` in exactly that order, so applying it to
any point translates first and scales afterwards. -/
theorem C6_transform_order (s : TransformState) :
    animatedStyle s =
      [TransformOp.translateX s.translateX, TransformOp.translateY s.translateY,
        TransformOp.scale s.scale] ∧
    ∀ p : ℚ × ℚ,
      applyTransform (animatedStyle s) p =
        ((p.1 + s.translateX) * s.scale, (p.2 + s.translateY) * s.scale) := by
  refine ⟨rfl, fun p => ?_⟩
  cases p
  simp [animatedStyle, applyTransform, applyOp]

/-- C8: the gesture computations are total over the rationals, and the
clamping alone keeps every reachable scale and translation within explicit
finite bounds, however large the gesture multipliers or deltas are. -/
theorem C8_total_bounded (width height : ℚ) (events : List GestureEvent)
    (hw : 0 ≤ width) (hh : 0 ≤ height) :
    |(run width height events).scale| ≤ 4 ∧
    |(run width height events).translateX| ≤ 3 / 2 * width ∧
    |(run width height events).translateY| ≤ 3 / 2 * height := by
  obtain ⟨h1, h4, hx, hy⟩ := inv_run width height events hw hh
  refine ⟨abs_le.mpr ⟨by linarith, h4⟩, ?_, ?_⟩
  · have hb : width * ((run width height events).scale - 1) / 2 ≤ 3 / 2 * width := by
      nlinarith
    linarith
  · have hb : height * ((run width height events).scale - 1) / 2 ≤ 3 / 2 * height := by
      nlinarith
    linarith

/-- C8 witness: a runaway multiplier and delta still land inside the
explicit bounds. -/
theorem C8_total_bounded_witness :
    (0 : ℚ) ≤ 300 ∧ (0 : ℚ) ≤ 400 ∧
    (|(run 300 400 [GestureEvent.pinchUpdate 1000000,
        GestureEvent.panUpdate 1000000 1000000]).scale| ≤ 4 ∧
    |(run 300 400 [GestureEvent.pinchUpdate 1000000,
        GestureEvent.panUpdate 1000000 1000000]).translateX| ≤ 3 / 2 * 300 ∧
    |(run 300 400 [GestureEvent.pinchUpdate 1000000,
        GestureEvent.panUpdate 1000000 1000000]).translateY| ≤ 3 / 2 * 400) :=
  ⟨by norm_num, by norm_num,
    C8_total_bounded 300 400
      [GestureEvent.pinchUpdate 1000000, GestureEvent.panUpdate 1000000 1000000]
      (by norm_num) (by norm_num)⟩

/-- C9: pinch and pan `onUpdate` never modify the saved values, and pan
`onEnd` leaves `scale` and `savedScale` unchanged. -/
theorem C9_saved_only_changed_on_end (width height m dx dy : ℚ)
    (s : TransformState) :
    (pinchUpdate width height m s).savedScale = s.savedScale ∧
    (pinchUpdate width height m s).savedTranslateX = s.savedTranslateX ∧
    (pinchUpdate width height m s).savedTranslateY = s.savedTranslateY ∧
    (panUpdate width height dx dy s).savedScale = s.savedScale ∧
    (panUpdate width height dx dy s).savedTranslateX = s.savedTranslateX ∧
    (panUpdate width height dx dy s).savedTranslateY = s.savedTranslateY ∧
    (panEnd s).scale = s.scale ∧
    (panEnd s).savedScale = s.savedScale :=
  ⟨rfl, rfl, rfl, rfl, rfl, rfl, rfl, rfl⟩

/-! ### Claim theorems for the API client -/

/-- C7 counterexample: in `src/services/api.ts`, a failing request with the
non-authentication error message `HTTP error! status: 404` and
`skipLogoutOnError` false still clears the stored session, so "cleared if
and only if the failure is an authentication error" is false. -/
theorem C7_counterexample :
    ¬ (((makeRequestApiTs Unit false
          (RequestOutcome.failure "HTTP error! status: 404".toList)
          (some "tok".toList)).2 = none) ↔
        isAuthError "HTTP error! status: 404".toList = true) := by
  decide

/-- C7 (amended): on a failing request with `skipLogoutOnError` false, the
embedded `makeRequest` variant clears the stored session exactly when the
error message is authentication-related and otherwise leaves the storage
intact, while the `src/services/api.ts` variant clears the stored session on
every failure; both surface the error to the caller. -/
theorem C7_logout_policy (T : Type) (msg : List Char) (st : Storage) :
    (makeRequestEmbedded T false (RequestOutcome.failure msg) st).2 =
      (if isAuthError msg then none else st) ∧
    (makeRequestEmbedded T false (RequestOutcome.failure msg) st).1 =
      Except.error msg ∧
    (makeRequestApiTs T false (RequestOutcome.failure msg) st).2 = none ∧
    (makeRequestApiTs T false (RequestOutcome.failure msg) st).1 =
      Except.error msg := by
  refine ⟨?_, rfl, rfl, rfl⟩
  simp only [makeRequestEmbedded, Bool.not_false, Bool.true_and, logout]

/-- C10: `login` stores a token exactly when the response carries a truthy
(non-empty) `access_token`, in which case exactly that token is stored; a
failing login leaves the previously stored token unchanged, since `login`
passes `skipLogoutOnError = true` — in both service variants. -/
theorem C10_login_token_storage (r : LoginResponse) (msg : List Char)
    (st : Storage) :
    (loginApiTs (RequestOutcome.success r) st).2 =
      (if r.access_token.isEmpty then st else some r.access_token) ∧
    (loginApiTs (RequestOutcome.failure msg) st).2 = st ∧
    (loginEmbedded (RequestOutcome.success r) st).2 =
      (if r.access_token.isEmpty then st else some r.access_token) ∧
    (loginEmbedded (RequestOutcome.failure msg) st).2 = st := by
  refine ⟨rfl, rfl, rfl, ?_⟩
  simp [loginEmbedded, makeRequestEmbedded]

end DropCars
